import Mathlib

set_option maxRecDepth 100000

/-!
Verification of the request-validation-and-prompt-dispatch layer of the
portfolio repository: the serverless demo dispatcher (strict, schema-validated
variant) and its unvalidated sibling.  JavaScript numbers are modelled as
rationals, JSON values as an inductive type, and the two HTTP handlers as pure
functions from a parsed request body, a configuration secret, a JSON-parse
oracle and a gateway oracle to an outcome (status, body, outbound call made).
-/

namespace AiDemo

/-- JSON values as delivered by the runtime to the handler.  JavaScript
numbers are modelled as rationals; an absent object key is modelled by
`Option.none` at use sites. -/
inductive Json where
  | null : Json
  | bool : Bool → Json
  | num : ℚ → Json
  | str : String → Json
  | arr : List Json → Json
  | obj : List (String × Json) → Json

/-- Property lookup on a JSON object field list (first binding wins). -/
def jlookup (fields : List (String × Json)) (k : String) : Option Json :=
  (fields.find? (fun p => p.1 = k)).map (fun p => p.2)

/-- The seven characters removed by the sanitizer regex [<>\x7b\x7d[\]\\]. -/
def specialChars : List Char := ['<', '>', '\x7b', '\x7d', '[', ']', '\\']

/-- Character-level step 1 of sanitizeInput: remove every special character
(global regex replace with the empty string). -/
def removeSpecial (l : List Char) : List Char :=
  l.filter (fun c => !(specialChars.contains c))

/-- Render a pending run of n newlines: a run of three or more collapses to
exactly two (regex replace of a maximal match of three or more newlines). -/
def emitRun (n : Nat) : List Char :=
  if 3 ≤ n then ['\n', '\n'] else List.replicate n '\n'

/-- Scanner for step 2 of sanitizeInput: n counts the newlines of the
currently pending maximal run. -/
def collapseAux : List Char → Nat → List Char
  | [], n => emitRun n
  | c :: rest, n =>
    if c = '\n' then collapseAux rest (n + 1)
    else emitRun n ++ c :: collapseAux rest 0

/-- Step 2 of sanitizeInput: collapse every maximal run of three or more
consecutive newlines to exactly two. -/
def collapseNewlines (l : List Char) : List Char :=
  collapseAux l 0

/-- The character class trimmed by the JavaScript trim method: ASCII
whitespace, NBSP, BOM and the Unicode space separators. -/
def jsWhitespaceChars : List Char :=
  [' ', '\t', '\n', '\r', '\x0b', '\x0c', ' ', ' ',
   ' ', ' ', ' ', ' ', ' ', ' ',
   ' ', ' ', ' ', ' ', ' ',
   ' ', ' ', ' ', ' ', '　', '﻿']

/-- Whether the JavaScript trim method considers c whitespace. -/
def isJsWhitespace (c : Char) : Bool :=
  jsWhitespaceChars.contains c

/-- Step 3 of sanitizeInput: the JavaScript trim method (strip leading and
trailing whitespace). -/
def jsTrim (l : List Char) : List Char :=
  (l.dropWhile isJsWhitespace).rdropWhile isJsWhitespace

/-- Character-level sanitizeInput from the validated dispatcher: remove
special characters, collapse newline runs, trim, then slice off everything
past the first 1000 characters (the hard limit, applied last). -/
def sanitizeChars (l : List Char) : List Char :=
  (jsTrim (collapseNewlines (removeSpecial l))).take 1000

/-- The sanitizeInput function of the validated dispatcher, on strings. -/
def sanitizeInput (s : String) : String :=
  String.mk (sanitizeChars s.data)

/-- A zod validation issue: the path of the offending field and a message.
The details string of a 400 response serializes this issue list. -/
structure Issue where
  path : List String
  msg : String
deriving DecidableEq

/-- The four demo types of the request schema enum. -/
inductive DemoType where
  | optmax : DemoType
  | collabPro : DemoType
  | nlpAnalysis : DemoType
  | financialAnalytics : DemoType
deriving DecidableEq

/-- The four legal values of the type field. -/
def demoTypeNames : List String :=
  ["optmax", "collab-pro", "nlp-analysis", "financial-analytics"]

/-- Parsing of the type field by the enum schema of RequestSchema. -/
def parseTypeField : Option Json → Except (List Issue) DemoType
  | some (.str s) =>
    if s = "optmax" then .ok .optmax
    else if s = "collab-pro" then .ok .collabPro
    else if s = "nlp-analysis" then .ok .nlpAnalysis
    else if s = "financial-analytics" then .ok .financialAnalytics
    else .error [⟨["type"], "Invalid enum value"⟩]
  | some _ => .error [⟨["type"], "Invalid enum value"⟩]
  | none => .error [⟨["type"], "Required"⟩]

/-- RequestSchema.safeParse: the body must be an object whose type field is
one of the four enum values; the data field is z.unknown() and always
accepted, possibly absent. -/
def requestSchemaParse (body : Json) :
    Except (List Issue) (DemoType × Option Json) :=
  match body with
  | .obj fields =>
    (match parseTypeField (jlookup fields "type") with
     | .ok t => .ok (t, jlookup fields "data")
     | .error es => .error es)
  | _ => .error [⟨[], "Expected object"⟩]

/-- The issues of a failed parse, empty on success. -/
def issuesOf {α : Type} : Except (List Issue) α → List Issue
  | .ok _ => []
  | .error es => es

/-- A z.number().min(0).max(100) field of an object schema, keyed by name;
all violated checks are collected, as zod does. -/
def parseNumField (name : String) : Option Json → Except (List Issue) ℚ
  | some (.num q) =>
    (let es :=
      (if q < 0 then
        [⟨[name], "Number must be greater than or equal to 0"⟩] else [])
      ++ (if 100 < q then
        [⟨[name], "Number must be less than or equal to 100"⟩] else [])
     if es = [] then .ok q else .error es)
  | some _ => .error [⟨[name], "Expected number"⟩]
  | none => .error [⟨[name], "Required"⟩]

/-- A z.string().min(lo).max(hi) field of an object schema, keyed by name.
String length is measured in code points, idealizing the UTF-16 units of
the JavaScript length property. -/
def parseStrField (name : String) (lo hi : Nat) :
    Option Json → Except (List Issue) String
  | some (.str s) =>
    (let es :=
      (if s.length < lo then
        [⟨[name], "String must contain at least " ++ toString lo
          ++ " character(s)"⟩] else [])
      ++ (if hi < s.length then
        [⟨[name], "String must contain at most " ++ toString hi
          ++ " character(s)"⟩] else [])
     if es = [] then .ok s else .error es)
  | some _ => .error [⟨[name], "Expected string"⟩]
  | none => .error [⟨[name], "Required"⟩]

/-- The regex of FinancialSchema: one or more ASCII letters spanning the
whole string. -/
def tickerPattern (s : String) : Bool :=
  !s.isEmpty && s.data.all Char.isAlpha

/-- The ticker field: z.string().min(1).max(10) with the letters-only
regex check; all violated checks are collected. -/
def parseTickerField : Option Json → Except (List Issue) String
  | some (.str s) =>
    (let es :=
      (if s.length < 1 then
        [⟨["ticker"], "String must contain at least 1 character(s)"⟩] else [])
      ++ (if 10 < s.length then
        [⟨["ticker"], "String must contain at most 10 character(s)"⟩] else [])
      ++ (if tickerPattern s then [] else
        [⟨["ticker"], "Ticker must be letters only"⟩])
     if es = [] then .ok s else .error es)
  | some _ => .error [⟨["ticker"], "Expected string"⟩]
  | none => .error [⟨["ticker"], "Required"⟩]

/-- The validated OptMax payload: four weights. -/
structure OptMaxData where
  budget : ℚ
  performance : ℚ
  vram : ℚ
  recency : ℚ
deriving DecidableEq

/-- The validated Collab-Pro payload. -/
structure CollabProData where
  brandName : String
  niche : String
  targetAudience : String
  budget : String
  goals : String
deriving DecidableEq

/-- The validated NLP payload. -/
structure NLPData where
  text : String
deriving DecidableEq

/-- The validated financial-analytics payload. -/
structure FinancialData where
  ticker : String
deriving DecidableEq

/-- OptMaxSchema.safeParse on the data value (absent data is undefined and
fails the object check). Issues of all failing fields are collected. -/
def optMaxSchemaParse : Option Json → Except (List Issue) OptMaxData
  | some (.obj fs) =>
    (let b := parseNumField "budget" (jlookup fs "budget")
     let p := parseNumField "performance" (jlookup fs "performance")
     let v := parseNumField "vram" (jlookup fs "vram")
     let r := parseNumField "recency" (jlookup fs "recency")
     match b, p, v, r with
     | .ok b, .ok p, .ok v, .ok r => .ok ⟨b, p, v, r⟩
     | b, p, v, r =>
       .error (issuesOf b ++ issuesOf p ++ issuesOf v ++ issuesOf r))
  | some _ => .error [⟨[], "Expected object"⟩]
  | none => .error [⟨[], "Required"⟩]

/-- CollabProSchema.safeParse on the data value. -/
def collabProSchemaParse : Option Json → Except (List Issue) CollabProData
  | some (.obj fs) =>
    (let bn := parseStrField "brandName" 1 100 (jlookup fs "brandName")
     let ni := parseStrField "niche" 1 50 (jlookup fs "niche")
     let ta := parseStrField "targetAudience" 0 200 (jlookup fs "targetAudience")
     let bu := parseStrField "budget" 0 50 (jlookup fs "budget")
     let go := parseStrField "goals" 0 500 (jlookup fs "goals")
     match bn, ni, ta, bu, go with
     | .ok bn, .ok ni, .ok ta, .ok bu, .ok go => .ok ⟨bn, ni, ta, bu, go⟩
     | bn, ni, ta, bu, go =>
       .error (issuesOf bn ++ issuesOf ni ++ issuesOf ta ++ issuesOf bu
         ++ issuesOf go))
  | some _ => .error [⟨[], "Expected object"⟩]
  | none => .error [⟨[], "Required"⟩]

/-- NLPSchema.safeParse on the data value. -/
def nlpSchemaParse : Option Json → Except (List Issue) NLPData
  | some (.obj fs) =>
    (match parseStrField "text" 10 5000 (jlookup fs "text") with
     | .ok t => .ok ⟨t⟩
     | .error es => .error es)
  | some _ => .error [⟨[], "Expected object"⟩]
  | none => .error [⟨[], "Required"⟩]

/-- FinancialSchema.safeParse on the data value. -/
def financialSchemaParse : Option Json → Except (List Issue) FinancialData
  | some (.obj fs) =>
    (match parseTickerField (jlookup fs "ticker") with
     | .ok t => .ok ⟨t⟩
     | .error es => .error es)
  | some _ => .error [⟨[], "Expected object"⟩]
  | none => .error [⟨[], "Required"⟩]

/-- The fixed OptMax system prompt template, verbatim from the source. -/
def optmaxSystemPrompt : String :=
  "You are OptMax, an intelligent GPU recommendation system. You analyze user preferences and recommend the best GPUs based on weighted criteria.\n\nGiven user preferences for:\n- Budget importance (0-100)\n- Performance importance (0-100)  \n- VRAM importance (0-100)\n- Release year importance (0-100)\n\nYou must:\n1. Recommend 5 GPUs that best match these preferences\n2. Explain WHY each GPU was recommended with specific reasoning\n3. Show a match score (0-100) for each\n4. Format response as JSON with structure:\n\x7b\n  \"recommendations\": [\n    \x7b\n      \"name\": \"GPU Name\",\n      \"price\": \"$XXX\",\n      \"benchmark\": \"XXX points\",\n      \"vram\": \"XX GB\",\n      \"year\": \"YYYY\",\n      \"matchScore\": XX,\n      \"explanation\": \"Why this GPU matches your preferences...\"\n    \x7d\n  ],\n  \"analysis\": \"Overall analysis of your preferences and recommendations\"\n\x7d"

/-- The fixed Collab-Pro system prompt template, verbatim from the source. -/
def collabProSystemPrompt : String :=
  "You are Collab-Pro, an AI-powered influencer marketing platform. You match brands with influencers using recommendation algorithms.\n\nGiven a brand's requirements:\n- Niche/Industry\n- Target audience\n- Budget range\n- Campaign goals\n\nYou must:\n1. Recommend 5 influencers that best match the brand\n2. Provide match confidence scores (0-100)\n3. Explain why each influencer is a good fit\n4. Format as JSON:\n\x7b\n  \"matches\": [\n    \x7b\n      \"name\": \"Influencer Name\",\n      \"platform\": \"Instagram/YouTube/TikTok\",\n      \"followers\": \"XXk\",\n      \"niche\": \"Their niche\",\n      \"engagementRate\": \"X.X%\",\n      \"matchScore\": XX,\n      \"reason\": \"Why they match...\"\n    \x7d\n  ],\n  \"strategy\": \"Recommended campaign strategy\"\n\x7d"

/-- The fixed NLP system prompt template, verbatim from the source. -/
def nlpSystemPrompt : String :=
  "You are an NLP Gender & Sentiment Analysis tool. You analyze text for:\n1. Gender representation and bias\n2. Sentiment (positive/negative/neutral)\n3. Social representation patterns\n4. Language bias indicators\n\nFormat response as JSON:\n\x7b\n  \"sentiment\": \x7b\n    \"overall\": \"positive/negative/neutral\",\n    \"score\": 0.XX,\n    \"breakdown\": \x7b \"positive\": X, \"negative\": X, \"neutral\": X \x7d\n  \x7d,\n  \"genderAnalysis\": \x7b\n    \"maleReferences\": X,\n    \"femaleReferences\": X,\n    \"neutralReferences\": X,\n    \"biasIndicators\": [\"list of bias patterns found\"],\n    \"biasScore\": 0.XX\n  \x7d,\n  \"socialRepresentation\": \x7b\n    \"dominantThemes\": [\"theme1\", \"theme2\"],\n    \"representationScore\": 0.XX,\n    \"observations\": [\"observation1\", \"observation2\"]\n  \x7d,\n  \"recommendations\": [\"How to improve representation...\"]\n\x7d"

/-- The fixed financial-analytics system prompt template, verbatim from the
source. -/
def financialSystemPrompt : String :=
  "You are a Financial Analytics AI providing technical and fundamental analysis.\n\nGiven a stock ticker, provide:\n1. Technical indicators analysis (Moving Averages, RSI, MACD)\n2. Fundamental analysis summary\n3. Price prediction insights\n4. Risk assessment\n\nFormat as JSON:\n\x7b\n  \"ticker\": \"SYMBOL\",\n  \"technicalAnalysis\": \x7b\n    \"trend\": \"bullish/bearish/neutral\",\n    \"movingAverages\": \x7b\n      \"ma20\": \"above/below price\",\n      \"ma50\": \"above/below price\",\n      \"signal\": \"buy/sell/hold\"\n    \x7d,\n    \"rsi\": \x7b\n      \"value\": XX,\n      \"signal\": \"overbought/oversold/neutral\"\n    \x7d,\n    \"macd\": \x7b\n      \"signal\": \"bullish/bearish crossover\"\n    \x7d\n  \x7d,\n  \"fundamentalAnalysis\": \x7b\n    \"peRatio\": \"XX.X\",\n    \"marketCap\": \"$XXB\",\n    \"sentiment\": \"positive/negative/neutral\"\n  \x7d,\n  \"prediction\": \x7b\n    \"shortTerm\": \"up/down/sideways\",\n    \"confidence\": XX,\n    \"reasoning\": \"...\"\n  \x7d,\n  \"riskLevel\": \"low/medium/high\",\n  \"recommendation\": \"Buy/Sell/Hold with reasoning\"\n\x7d"

/-- Rendering of a JavaScript number into a template literal; exact for
integers (the only values exercised by the claims), abstracting JS float
formatting for non-integral rationals. -/
def numToString (q : ℚ) : String :=
  if q.den = 1 then toString q.num else toString q

/-- The user prompt of a validated optmax request. -/
def optmaxUserPrompt (d : OptMaxData) : String :=
  "User preferences: Budget: " ++ numToString d.budget
    ++ "%, Performance: " ++ numToString d.performance
    ++ "%, VRAM: " ++ numToString d.vram
    ++ "%, Recency: " ++ numToString d.recency
    ++ "%. Recommend 5 GPUs."

/-- The user prompt of a validated collab-pro request; every free-text
field passes through sanitizeInput. -/
def collabProUserPrompt (d : CollabProData) : String :=
  "Brand: " ++ sanitizeInput d.brandName
    ++ ", Niche: " ++ sanitizeInput d.niche
    ++ ", Target: " ++ sanitizeInput d.targetAudience
    ++ ", Budget: " ++ sanitizeInput d.budget
    ++ ", Goals: " ++ sanitizeInput d.goals
    ++ ". Find matching influencers."

/-- The user prompt of a validated nlp-analysis request. -/
def nlpUserPrompt (d : NLPData) : String :=
  "Analyze this text for gender representation and sentiment: \""
    ++ sanitizeInput d.text ++ "\""

/-- The user prompt of a validated financial-analytics request. -/
def financialUserPrompt (d : FinancialData) : String :=
  "Provide comprehensive financial analysis for ticker: "
    ++ d.ticker.toUpper

/-- The message pair of the single outbound chat-completion request. -/
structure GatewayCall where
  systemPrompt : String
  userPrompt : String
deriving DecidableEq

/-- The gateway reply as seen by the handler: the HTTP status and the
message content choices[0].message.content read on success. -/
structure GwResp where
  status : Nat
  content : String

/-- The JSON body of the HTTP response produced by a handler. -/
inductive RespBody where
  | errorDetails : String → List Issue → RespBody
  | errorOnly : String → RespBody
  | json : Json → RespBody

/-- A finished request: HTTP status, response body, and the outbound
gateway call if one was made. -/
structure Outcome where
  status : Nat
  body : RespBody
  called : Option GatewayCall

/-- The ok property of a fetch response: status in the 200 range. -/
def respOk (status : Nat) : Bool :=
  200 ≤ status && status ≤ 299

/-- The shared tail of both handlers, from the fetch onward: classify the
gateway status, then parse the message content as JSON with the raw-text
fallback. The jsParse argument is the JSON.parse oracle of the runtime,
returning none when JSON.parse throws. -/
def gatewayPhase (jsParse : String → Option Json) (gw : GatewayCall → GwResp)
    (call : GatewayCall) : Outcome :=
  let resp := gw call
  if !(respOk resp.status) then
    if resp.status = 429 then
      ⟨429, .errorOnly "Rate limit exceeded. Please try again later.", some call⟩
    else if resp.status = 402 then
      ⟨402, .errorOnly "API credits exhausted. Please add credits.", some call⟩
    else
      ⟨500, .errorOnly "AI gateway error", some call⟩
  else
    match jsParse resp.content with
    | some j => ⟨200, .json j, some call⟩
    | none => ⟨200, .json (.obj [("rawResponse", .str resp.content)]), some call⟩

/-- The strict, schema-validated dispatcher: envelope validation, secret
check, per-type field validation, prompt construction, gateway exchange.
A thrown error is caught at the top and mapped to a 500 with the message. -/
def handlerValidated (jsParse : String → Option Json) (apiKey : Option String)
    (gw : GatewayCall → GwResp) (body : Json) : Outcome :=
  match requestSchemaParse body with
  | .error es => ⟨400, .errorDetails "Invalid request format" es, none⟩
  | .ok (t, data) =>
    match apiKey with
    | none => ⟨500, .errorOnly "LOVABLE_API_KEY is not configured", none⟩
    | some _ =>
      match t with
      | .optmax =>
        (match optMaxSchemaParse data with
         | .error es => ⟨400, .errorDetails "Invalid OptMax input" es, none⟩
         | .ok d => gatewayPhase jsParse gw ⟨optmaxSystemPrompt, optmaxUserPrompt d⟩)
      | .collabPro =>
        (match collabProSchemaParse data with
         | .error es => ⟨400, .errorDetails "Invalid Collab-Pro input" es, none⟩
         | .ok d => gatewayPhase jsParse gw ⟨collabProSystemPrompt, collabProUserPrompt d⟩)
      | .nlpAnalysis =>
        (match nlpSchemaParse data with
         | .error es => ⟨400, .errorDetails "Invalid NLP input" es, none⟩
         | .ok d => gatewayPhase jsParse gw ⟨nlpSystemPrompt, nlpUserPrompt d⟩)
      | .financialAnalytics =>
        (match financialSchemaParse data with
         | .error es => ⟨400, .errorDetails "Invalid ticker format" es, none⟩
         | .ok d => gatewayPhase jsParse gw ⟨financialSystemPrompt, financialUserPrompt d⟩)

mutual

/-- String coercion of a JSON value being joined inside an array: null
renders empty and nested arrays flatten (JavaScript array toString). -/
def itemToString : Json → String
  | .null => ""
  | .bool true => "true"
  | .bool false => "false"
  | .num q => numToString q
  | .str s => s
  | .arr xs => arrToString xs
  | .obj _ => "[object Object]"

/-- Array elements joined with commas (JavaScript array join). -/
def arrToString : List Json → String
  | [] => ""
  | [x] => itemToString x
  | x :: y :: rest => itemToString x ++ "," ++ arrToString (y :: rest)

end

/-- JavaScript template-literal coercion of a JSON value. -/
def jsToString : Json → String
  | .null => "null"
  | .bool true => "true"
  | .bool false => "false"
  | .num q => numToString q
  | .str s => s
  | .arr xs => arrToString xs
  | .obj _ => "[object Object]"

/-- JavaScript property access on a JSON value: undefined on anything that
is not an object carrying the key. -/
def jsProp : Json → String → Option Json
  | .obj fs, k => jlookup fs k
  | _, _ => none

/-- Evaluation of a data field inside a template literal of the unvalidated
dispatcher: property access on undefined or null throws a TypeError, an
absent property renders as the text undefined. -/
def rawField (data : Option Json) (k : String) : Except String String :=
  match data with
  | none => .error "Cannot read properties of undefined"
  | some .null => .error "Cannot read properties of null"
  | some j =>
    .ok (match jsProp j k with
         | some v => jsToString v
         | none => "undefined")

/-- The optmax user prompt of the unvalidated dispatcher, rendered from the
raw, unchecked payload. -/
def rawOptmaxUserPrompt (data : Option Json) : Except String String := do
  let b ← rawField data "budget"
  let p ← rawField data "performance"
  let v ← rawField data "vram"
  let r ← rawField data "recency"
  return "User preferences: Budget: " ++ b ++ "%, Performance: " ++ p
    ++ "%, VRAM: " ++ v ++ "%, Recency: " ++ r ++ "%. Recommend 5 GPUs."

/-- The collab-pro user prompt of the unvalidated dispatcher: no
sanitization, no bounds. -/
def rawCollabProUserPrompt (data : Option Json) : Except String String := do
  let bn ← rawField data "brandName"
  let ni ← rawField data "niche"
  let ta ← rawField data "targetAudience"
  let bu ← rawField data "budget"
  let go ← rawField data "goals"
  return "Brand: " ++ bn ++ ", Niche: " ++ ni ++ ", Target: " ++ ta
    ++ ", Budget: " ++ bu ++ ", Goals: " ++ go ++ ". Find matching influencers."

/-- The nlp-analysis user prompt of the unvalidated dispatcher. -/
def rawNlpUserPrompt (data : Option Json) : Except String String := do
  let t ← rawField data "text"
  return "Analyze this text for gender representation and sentiment: \""
    ++ t ++ "\""

/-- The financial-analytics user prompt of the unvalidated dispatcher; note
there is no uppercasing here, unlike the validated variant. -/
def rawFinancialUserPrompt (data : Option Json) : Except String String := do
  let t ← rawField data "ticker"
  return "Provide comprehensive financial analysis for ticker: " ++ t

/-- The unvalidated sibling dispatcher: destructures the raw body, checks
only the secret, performs no schema validation, bounds checking or
sanitization, and dispatches on the raw type string; an unknown type and
every thrown error map to a 500 through the top-level catch. -/
def handlerUnvalidated (jsParse : String → Option Json)
    (apiKey : Option String) (gw : GatewayCall → GwResp) (body : Json) :
    Outcome :=
  match body with
  | .null => ⟨500, .errorOnly "Cannot destructure properties of null", none⟩
  | _ =>
    let data := jsProp body "data"
    match apiKey with
    | none => ⟨500, .errorOnly "LOVABLE_API_KEY is not configured", none⟩
    | some _ =>
      match jsProp body "type" with
      | some (.str "optmax") =>
        (match rawOptmaxUserPrompt data with
         | .error e => ⟨500, .errorOnly e, none⟩
         | .ok up => gatewayPhase jsParse gw ⟨optmaxSystemPrompt, up⟩)
      | some (.str "collab-pro") =>
        (match rawCollabProUserPrompt data with
         | .error e => ⟨500, .errorOnly e, none⟩
         | .ok up => gatewayPhase jsParse gw ⟨collabProSystemPrompt, up⟩)
      | some (.str "nlp-analysis") =>
        (match rawNlpUserPrompt data with
         | .error e => ⟨500, .errorOnly e, none⟩
         | .ok up => gatewayPhase jsParse gw ⟨nlpSystemPrompt, up⟩)
      | some (.str "financial-analytics") =>
        (match rawFinancialUserPrompt data with
         | .error e => ⟨500, .errorOnly e, none⟩
         | .ok up => gatewayPhase jsParse gw ⟨financialSystemPrompt, up⟩)
      | _ => ⟨500, .errorOnly "Unknown analysis type", none⟩

/-- Whether the body carries a type field holding one of the four enum
strings. -/
def typeFieldOk (body : Json) : Bool :=
  match body with
  | .obj fs =>
    (match jlookup fs "type" with
     | some (.str s) => demoTypeNames.contains s
     | _ => false)
  | _ => false

/-- Whether the envelope schema accepts the body. -/
def envelopeOk (body : Json) : Bool :=
  match requestSchemaParse body with
  | .ok _ => true
  | .error _ => false

/-- Whether the type-specific schema accepts the data payload. -/
def fieldsOk : DemoType → Option Json → Bool
  | .optmax, d => (optMaxSchemaParse d).toBool
  | .collabPro, d => (collabProSchemaParse d).toBool
  | .nlpAnalysis, d => (nlpSchemaParse d).toBool
  | .financialAnalytics, d => (financialSchemaParse d).toBool

/-- Whether a request body passes envelope and type-specific validation. -/
def validRequest (body : Json) : Bool :=
  match requestSchemaParse body with
  | .ok (t, d) => fieldsOk t d
  | .error _ => false

/-- The system prompt template selected for a demo type. -/
def systemPromptFor : DemoType → String
  | .optmax => optmaxSystemPrompt
  | .collabPro => collabProSystemPrompt
  | .nlpAnalysis => nlpSystemPrompt
  | .financialAnalytics => financialSystemPrompt

/-- The three-newline pattern that must not survive sanitization. -/
def tripleNewline : List Char := ['\n', '\n', '\n']

/-- An optmax request body carrying the given data fields. -/
def optmaxBody (fs : List (String × Json)) : Json :=
  .obj [("type", .str "optmax"), ("data", .obj fs)]

/-- An optmax request whose budget weight is out of range; the strict
dispatcher rejects it, the unvalidated sibling forwards it. -/
def c9Body : Json :=
  optmaxBody [("budget", .num (-1)), ("performance", .num 50),
              ("vram", .num 50), ("recency", .num 50)]

/-- A well-formed optmax request body used as a concrete witness input. -/
def optBodyW : Json :=
  optmaxBody [("budget", .num 50), ("performance", .num 50),
              ("vram", .num 50), ("recency", .num 50)]

/-- A well-formed nlp-analysis request body used as a concrete witness
input. -/
def nlpBodyW : Json :=
  .obj [("type", .str "nlp-analysis"),
        ("data", .obj [("text", .str "hello world, how are you")])]

/-- A 1001-character input: 999 letters, a space, then a letter.  Trimming
leaves it unchanged, but the final slice cuts the last letter and exposes
the space at position 999. -/
def longTailInput : List Char := List.replicate 999 'a' ++ [' ', 'b']

lemma infix_of_pref {α : Type} {l1 l2 : List α} (h : l1 <+: l2) :
    l1 <:+: l2 := by
  rcases h with ⟨t, rfl⟩
  exact ⟨[], t, rfl⟩

lemma infix_of_suf {α : Type} {l1 l2 : List α} (h : l1 <:+ l2) :
    l1 <:+: l2 := by
  rcases h with ⟨s, rfl⟩
  exact ⟨s, [], by simp⟩

lemma mem_removeSpecial {c : Char} {l : List Char} (h : c ∈ removeSpecial l) :
    specialChars.contains c = false := by
  have h2 := List.mem_filter.mp h
  simpa using h2.2

lemma mem_emitRun {c : Char} {n : Nat} (h : c ∈ emitRun n) : c = '\n' := by
  unfold emitRun at h
  split at h
  · simpa using h
  · exact List.eq_of_mem_replicate h

lemma mem_collapseAux {c : Char} : ∀ {l : List Char} {n : Nat},
    c ∈ collapseAux l n → c = '\n' ∨ c ∈ l := by
  intro l
  induction l with
  | nil =>
    intro n h
    exact Or.inl (mem_emitRun (by simpa [collapseAux] using h))
  | cons a rest ih =>
    intro n h
    unfold collapseAux at h
    by_cases ha : a = '\n'
    · rw [if_pos ha] at h
      rcases ih h with h1 | h1
      · exact Or.inl h1
      · exact Or.inr (List.mem_cons_of_mem a h1)
    · rw [if_neg ha] at h
      rcases List.mem_append.mp h with h1 | h1
      · exact Or.inl (mem_emitRun h1)
      · rcases List.mem_cons.mp h1 with h2 | h2
        · exact Or.inr (h2 ▸ List.mem_cons_self a rest)
        · rcases ih h2 with h3 | h3
          · exact Or.inl h3
          · exact Or.inr (List.mem_cons_of_mem a h3)

lemma jsTrim_within (l : List Char) : jsTrim l <:+: l := by
  have h1 := List.rdropWhile_prefix isJsWhitespace (l.dropWhile isJsWhitespace)
  have h2 := List.dropWhile_suffix (l := l) isJsWhitespace
  exact (infix_of_pref h1).trans (infix_of_suf h2)

lemma sanitizeChars_within (l : List Char) :
    sanitizeChars l <:+: collapseNewlines (removeSpecial l) := by
  have h1 : sanitizeChars l <+: jsTrim (collapseNewlines (removeSpecial l)) :=
    ⟨_, List.take_append_drop 1000 _⟩
  exact (infix_of_pref h1).trans (jsTrim_within _)

/-- No special character survives sanitization: removal happens first and
the later phases only keep or drop characters (the collapse phase inserts
only newlines). -/
lemma sanitizeChars_no_special {c : Char} {l : List Char}
    (h : c ∈ sanitizeChars l) : specialChars.contains c = false := by
  have h1 : c ∈ collapseNewlines (removeSpecial l) :=
    (sanitizeChars_within l).sublist.subset h
  rcases mem_collapseAux h1 with h2 | h2
  · subst h2
    decide
  · exact mem_removeSpecial h2

lemma one_pref_cons {a : Char} {t : List Char} : ['\n'] <+: a :: t ↔ a = '\n' := by
  constructor
  · intro h
    exact ((List.cons_prefix_cons.mp h).1).symm
  · intro h
    subst h
    exact List.cons_prefix_cons.mpr ⟨rfl, by simp⟩

lemma two_pref_cons {a : Char} {t : List Char} :
    ['\n', '\n'] <+: a :: t ↔ a = '\n' ∧ ['\n'] <+: t := by
  constructor
  · intro h
    rcases List.cons_prefix_cons.mp h with ⟨h1, h2⟩
    exact ⟨h1.symm, h2⟩
  · rintro ⟨rfl, h⟩
    exact List.cons_prefix_cons.mpr ⟨rfl, h⟩

lemma triple_infix_cons {a : Char} {t : List Char} :
    tripleNewline <:+: a :: t ↔
      (a = '\n' ∧ ['\n', '\n'] <+: t) ∨ tripleNewline <:+: t := by
  unfold tripleNewline
  rw [List.infix_cons_iff]
  constructor
  · rintro (h | h)
    · rcases List.cons_prefix_cons.mp h with ⟨h1, h2⟩
      exact Or.inl ⟨h1.symm, h2⟩
    · exact Or.inr h
  · rintro (⟨rfl, h⟩ | h)
    · exact Or.inl (List.cons_prefix_cons.mpr ⟨rfl, h⟩)
    · exact Or.inr h

lemma emitRun_no_triple (n : Nat) : ¬ tripleNewline <:+: emitRun n := by
  unfold emitRun
  split
  · decide
  · next hn =>
    have h2 : n ≤ 2 := by omega
    interval_cases n
    · decide
    · decide
    · decide

lemma no_triple_emit_append {c : Char} {t : List Char} (n : Nat)
    (hc : ¬ c = '\n') (h : ¬ tripleNewline <:+: c :: t) :
    ¬ tripleNewline <:+: emitRun n ++ c :: t := by
  have step1 : ¬ tripleNewline <:+: ('\n' :: c :: t) := by
    intro habs
    rcases triple_infix_cons.mp habs with ⟨-, h2⟩ | h2
    · exact hc (two_pref_cons.mp h2).1
    · exact h h2
  have step2 : ¬ tripleNewline <:+: ('\n' :: '\n' :: c :: t) := by
    intro habs
    rcases triple_infix_cons.mp habs with ⟨-, h2⟩ | h2
    · rcases two_pref_cons.mp h2 with ⟨-, h3⟩
      exact hc (one_pref_cons.mp h3)
    · exact step1 h2
  unfold emitRun
  split
  · simpa using step2
  · next hn =>
    have h2 : n ≤ 2 := by omega
    interval_cases n
    · simpa using h
    · simpa using step1
    · simpa using step2

lemma collapseAux_no_triple : ∀ (l : List Char) (n : Nat),
    ¬ tripleNewline <:+: collapseAux l n := by
  intro l
  induction l with
  | nil =>
    intro n
    simpa [collapseAux] using emitRun_no_triple n
  | cons c rest ih =>
    intro n
    by_cases hc : c = '\n'
    · subst hc
      simpa [collapseAux] using ih (n + 1)
    · have h1 : ¬ tripleNewline <:+: c :: collapseAux rest 0 := by
        intro habs
        rcases triple_infix_cons.mp habs with ⟨h2, -⟩ | h2
        · exact hc h2
        · exact ih 0 h2
      simpa [collapseAux, hc] using no_triple_emit_append n hc h1

/-- No run of three or more consecutive newlines survives sanitization. -/
lemma sanitizeChars_no_triple (l : List Char) :
    ¬ tripleNewline <:+: sanitizeChars l := by
  intro h
  exact collapseAux_no_triple (removeSpecial l) 0
    (h.trans (sanitizeChars_within l))

lemma head_take_pos {α : Type} {l : List α} {c : α} {n : Nat} (hn : 0 < n)
    (h : (l.take n).head? = some c) : l.head? = some c := by
  cases l with
  | nil => simp at h
  | cons a t =>
    cases n with
    | zero => omega
    | succ m => simpa using h

lemma head_of_pref {α : Type} {l1 l2 : List α} {c : α} (h : l1 <+: l2)
    (hc : l1.head? = some c) : l2.head? = some c := by
  rcases h with ⟨t, rfl⟩
  cases l1 with
  | nil => simp at hc
  | cons a u => simpa using hc

lemma dropWhile_head_false {p : Char → Bool} {l : List Char} {c : Char}
    (h : (l.dropWhile p).head? = some c) : p c = false := by
  induction l with
  | nil => simp at h
  | cons a t ih =>
    rw [List.dropWhile_cons] at h
    by_cases hp : p a
    · rw [if_pos hp] at h
      exact ih h
    · rw [if_neg hp] at h
      have h2 : a = c := by simpa using h
      subst h2
      simpa using hp

/-- The sanitized output never starts with whitespace: the trim strips the
front and the final slice keeps a prefix. -/
lemma sanitizeChars_head_not_ws {l : List Char} {c : Char}
    (h : (sanitizeChars l).head? = some c) : isJsWhitespace c = false := by
  unfold sanitizeChars at h
  have h1 := head_take_pos (by omega) h
  unfold jsTrim at h1
  have h2 := head_of_pref (List.rdropWhile_prefix isJsWhitespace _) h1
  exact dropWhile_head_false h2

/-- The sanitized output has at most 1000 characters. -/
lemma sanitizeChars_length_le (l : List Char) :
    (sanitizeChars l).length ≤ 1000 :=
  List.length_take_le 1000 _

/-- When the slice truncates nothing, the sanitized output does not end in
whitespace either. -/
lemma sanitizeChars_last_not_ws {l : List Char} {c : Char}
    (hlen : (jsTrim (collapseNewlines (removeSpecial l))).length ≤ 1000)
    (h : (sanitizeChars l).getLast? = some c) : isJsWhitespace c = false := by
  unfold sanitizeChars at h
  rw [List.take_of_length_le hlen] at h
  unfold jsTrim at h
  have hne : (List.dropWhile isJsWhitespace
      (collapseNewlines (removeSpecial l))).rdropWhile isJsWhitespace ≠ [] := by
    intro he
    rw [he] at h
    simp at h
  have h2 := List.rdropWhile_last_not isJsWhitespace
    (List.dropWhile isJsWhitespace (collapseNewlines (removeSpecial l))) hne
  rw [List.getLast?_eq_getLast _ hne] at h
  have h3 : c = _ := (Option.some.inj h).symm
  rw [h3]
  simpa using h2

lemma removeSpecial_eq_self {l : List Char}
    (h : ∀ c ∈ l, specialChars.contains c = false) : removeSpecial l = l :=
  List.filter_eq_self.mpr (fun c hc => by
    have h2 := h c hc
    simp only [Bool.not_eq_true']
    exact h2)

lemma collapseAux_eq_self : ∀ (l : List Char) (n : Nat), n ≤ 2 →
    ¬ tripleNewline <:+: (List.replicate n '\n' ++ l) →
    collapseAux l n = List.replicate n '\n' ++ l := by
  intro l
  induction l with
  | nil =>
    intro n hn _
    show emitRun n = _
    rw [emitRun, if_neg (by omega : ¬ 3 ≤ n)]
    simp
  | cons c rest ih =>
    intro n hn h
    by_cases hc : c = '\n'
    · subst hc
      have hn1 : n + 1 ≤ 2 := by
        by_contra hcon
        have hn2 : n = 2 := by omega
        subst hn2
        exact h ⟨[], rest, rfl⟩
      have heq : List.replicate n '\n' ++ '\n' :: rest
          = List.replicate (n + 1) '\n' ++ rest := by
        rw [List.replicate_succ' n '\n']
        simp
      rw [heq] at h ⊢
      simp only [collapseAux, if_pos rfl]
      exact ih (n + 1) hn1 h
    · have h0 : ¬ tripleNewline <:+: rest := by
        intro habs
        apply h
        have hsuf : rest <:+ List.replicate n '\n' ++ c :: rest :=
          ⟨List.replicate n '\n' ++ [c], by simp⟩
        exact habs.trans (infix_of_suf hsuf)
      have hrest : collapseAux rest 0 = rest := by
        simpa using ih 0 (by omega) (by simpa using h0)
      simp only [collapseAux, if_neg hc]
      rw [hrest, emitRun, if_neg (by omega : ¬ 3 ≤ n)]

lemma collapseNewlines_eq_self {l : List Char}
    (h : ¬ tripleNewline <:+: l) : collapseNewlines l = l := by
  have h2 := collapseAux_eq_self l 0 (by omega) (by simpa using h)
  simpa [collapseNewlines] using h2

lemma dropWhile_eq_self_of_head {p : Char → Bool} {l : List Char}
    (h : ∀ c, l.head? = some c → p c = false) : l.dropWhile p = l := by
  cases l with
  | nil => rfl
  | cons a t =>
    rw [List.dropWhile_cons, if_neg (by simp [h a rfl])]

lemma rdropWhile_eq_self_of_last {p : Char → Bool} {l : List Char}
    (h : ∀ c, l.getLast? = some c → p c = false) : l.rdropWhile p = l := by
  apply List.rdropWhile_eq_self_iff.mpr
  intro hl hp
  have h1 := List.getLast?_eq_getLast l hl
  have h2 := h _ h1
  rw [h2] at hp
  exact Bool.false_ne_true hp

/-- A list already satisfying every sanitizer guarantee, including not
ending in whitespace, is a fixed point of sanitizeChars. -/
lemma sanitizeChars_fixed {l : List Char}
    (hspecial : ∀ c ∈ l, specialChars.contains c = false)
    (htriple : ¬ tripleNewline <:+: l)
    (hhead : ∀ c, l.head? = some c → isJsWhitespace c = false)
    (hlast : ∀ c, l.getLast? = some c → isJsWhitespace c = false)
    (hlen : l.length ≤ 1000) :
    sanitizeChars l = l := by
  unfold sanitizeChars
  rw [removeSpecial_eq_self hspecial, collapseNewlines_eq_self htriple]
  unfold jsTrim
  rw [dropWhile_eq_self_of_head hhead, rdropWhile_eq_self_of_last hlast]
  exact List.take_of_length_le hlen

/-- Whoever reaches the gateway phase has made exactly the outbound call
it was given, whatever the gateway answers. -/
lemma gatewayPhase_called (jsParse : String → Option Json)
    (gw : GatewayCall → GwResp) (call : GatewayCall) :
    (gatewayPhase jsParse gw call).called = some call := by
  simp only [gatewayPhase]
  split
  · split
    · rfl
    · split
      · rfl
      · rfl
  · split
    · rfl
    · rfl

lemma called_eq_of_phase {jsParse : String → Option Json}
    {gw : GatewayCall → GwResp} {call c : GatewayCall}
    (h : (gatewayPhase jsParse gw call).called = some c) :
    gatewayPhase jsParse gw call = gatewayPhase jsParse gw c := by
  have h2 := (gatewayPhase_called jsParse gw call).symm.trans h
  rw [Option.some.inj h2]

/-- When the strict dispatcher made an outbound call, its whole outcome is
the gateway phase of that call. -/
lemma handlerValidated_called_eq {jsParse : String → Option Json}
    {k : Option String} {gw : GatewayCall → GwResp} {body : Json}
    {c : GatewayCall}
    (h : (handlerValidated jsParse k gw body).called = some c) :
    handlerValidated jsParse k gw body = gatewayPhase jsParse gw c := by
  cases he : requestSchemaParse body with
  | error es =>
    simp only [handlerValidated, he] at h
    simp at h
  | ok td =>
    obtain ⟨t, data⟩ := td
    simp only [handlerValidated, he] at h ⊢
    cases k with
    | none => simp at h
    | some key =>
      cases t with
      | optmax =>
        cases hd : optMaxSchemaParse data with
        | error es =>
          simp only [hd] at h
          simp at h
        | ok d =>
          simp only [hd] at h ⊢
          exact called_eq_of_phase h
      | collabPro =>
        cases hd : collabProSchemaParse data with
        | error es =>
          simp only [hd] at h
          simp at h
        | ok d =>
          simp only [hd] at h ⊢
          exact called_eq_of_phase h
      | nlpAnalysis =>
        cases hd : nlpSchemaParse data with
        | error es =>
          simp only [hd] at h
          simp at h
        | ok d =>
          simp only [hd] at h ⊢
          exact called_eq_of_phase h
      | financialAnalytics =>
        cases hd : financialSchemaParse data with
        | error es =>
          simp only [hd] at h
          simp at h
        | ok d =>
          simp only [hd] at h ⊢
          exact called_eq_of_phase h

/-- When the strict dispatcher made an outbound call, its system prompt is
the fixed template of the request type. -/
lemma handlerValidated_sysPrompt {jsParse : String → Option Json}
    {k : Option String} {gw : GatewayCall → GwResp} {body : Json}
    {c : GatewayCall} {t : DemoType} {data : Option Json}
    (he : requestSchemaParse body = .ok (t, data))
    (h : (handlerValidated jsParse k gw body).called = some c) :
    c.systemPrompt = systemPromptFor t := by
  simp only [handlerValidated, he] at h
  cases k with
  | none => simp at h
  | some key =>
    cases t with
    | optmax =>
      cases hd : optMaxSchemaParse data with
      | error es =>
        simp only [hd] at h
        simp at h
      | ok d =>
        simp only [hd] at h
        have h2 := (gatewayPhase_called jsParse gw _).symm.trans h
        rw [← Option.some.inj h2]
        rfl
    | collabPro =>
      cases hd : collabProSchemaParse data with
      | error es =>
        simp only [hd] at h
        simp at h
      | ok d =>
        simp only [hd] at h
        have h2 := (gatewayPhase_called jsParse gw _).symm.trans h
        rw [← Option.some.inj h2]
        rfl
    | nlpAnalysis =>
      cases hd : nlpSchemaParse data with
      | error es =>
        simp only [hd] at h
        simp at h
      | ok d =>
        simp only [hd] at h
        have h2 := (gatewayPhase_called jsParse gw _).symm.trans h
        rw [← Option.some.inj h2]
        rfl
    | financialAnalytics =>
      cases hd : financialSchemaParse data with
      | error es =>
        simp only [hd] at h
        simp at h
      | ok d =>
        simp only [hd] at h
        have h2 := (gatewayPhase_called jsParse gw _).symm.trans h
        rw [← Option.some.inj h2]
        rfl

lemma gatewayPhase_429 {jsParse : String → Option Json}
    {gw : GatewayCall → GwResp} {call : GatewayCall}
    (h : (gw call).status = 429) :
    gatewayPhase jsParse gw call =
      ⟨429, .errorOnly "Rate limit exceeded. Please try again later.",
        some call⟩ := by
  simp [gatewayPhase, h, respOk]

lemma gatewayPhase_200 {jsParse : String → Option Json}
    {gw : GatewayCall → GwResp} {call : GatewayCall}
    (h : (gw call).status = 200) :
    gatewayPhase jsParse gw call =
      ⟨200,
        (match jsParse (gw call).content with
         | some j => RespBody.json j
         | none => RespBody.json (.obj [("rawResponse", .str (gw call).content)])),
        some call⟩ := by
  cases hj : jsParse (gw call).content with
  | some j => simp [gatewayPhase, h, respOk, hj]
  | none => simp [gatewayPhase, h, respOk, hj]

lemma parseNumField_out_lt {f : String} {q : ℚ} (h1 : q < 0) :
    ∃ es, parseNumField f (some (.num q)) = .error es ∧
      ∃ i ∈ es, i.path = [f] := by
  refine ⟨⟨[f], "Number must be greater than or equal to 0"⟩ ::
      (if 100 < q then
        [⟨[f], "Number must be less than or equal to 100"⟩] else []),
    ?_, ?_⟩
  · simp only [parseNumField, if_pos h1, List.cons_append, List.nil_append]
    rw [if_neg (by simp)]
  · exact ⟨⟨[f], "Number must be greater than or equal to 0"⟩,
      List.mem_cons_self _ _, rfl⟩

lemma parseNumField_out_gt {f : String} {q : ℚ} (h1 : 100 < q) :
    ∃ es, parseNumField f (some (.num q)) = .error es ∧
      ∃ i ∈ es, i.path = [f] := by
  have h0 : ¬ q < 0 := by linarith
  refine ⟨[⟨[f], "Number must be less than or equal to 100"⟩], ?_, ?_⟩
  · simp only [parseNumField, if_pos h1, if_neg h0, List.nil_append]
    rw [if_neg (by simp)]
  · exact ⟨⟨[f], "Number must be less than or equal to 100"⟩,
      List.mem_cons_self _ _, rfl⟩

lemma parseNumField_out {f : String} {q : ℚ} (hq : q < 0 ∨ 100 < q) :
    ∃ es, parseNumField f (some (.num q)) = .error es ∧
      ∃ i ∈ es, i.path = [f] := by
  rcases hq with h | h
  · exact parseNumField_out_lt h
  · exact parseNumField_out_gt h

/-- The OptMax schema either accepts all four weights or reports the
concatenation of the per-field issue lists. -/
lemma optMaxSchemaParse_cases (fs : List (String × Json)) :
    (∃ db dp dv dr,
      parseNumField "budget" (jlookup fs "budget") = .ok db ∧
      parseNumField "performance" (jlookup fs "performance") = .ok dp ∧
      parseNumField "vram" (jlookup fs "vram") = .ok dv ∧
      parseNumField "recency" (jlookup fs "recency") = .ok dr ∧
      optMaxSchemaParse (some (.obj fs)) = .ok ⟨db, dp, dv, dr⟩) ∨
    optMaxSchemaParse (some (.obj fs)) =
      .error (issuesOf (parseNumField "budget" (jlookup fs "budget"))
        ++ issuesOf (parseNumField "performance" (jlookup fs "performance"))
        ++ issuesOf (parseNumField "vram" (jlookup fs "vram"))
        ++ issuesOf (parseNumField "recency" (jlookup fs "recency"))) := by
  simp only [optMaxSchemaParse]
  cases hb : parseNumField "budget" (jlookup fs "budget") with
  | error e1 => right; rfl
  | ok d1 =>
    cases hp : parseNumField "performance" (jlookup fs "performance") with
    | error e2 => right; rfl
    | ok d2 =>
      cases hv : parseNumField "vram" (jlookup fs "vram") with
      | error e3 => right; rfl
      | ok d3 =>
        cases hr : parseNumField "recency" (jlookup fs "recency") with
        | error e4 => right; rfl
        | ok d4 =>
          left
          exact ⟨d1, d2, d3, d4, rfl, rfl, rfl, rfl, rfl⟩

/-- An out-of-range weight makes the OptMax schema fail with an issue
naming exactly that field, whatever the other fields hold. -/
lemma optMaxSchemaParse_field_out {fs : List (String × Json)} {f : String}
    {q : ℚ}
    (hf : f = "budget" ∨ f = "performance" ∨ f = "vram" ∨ f = "recency")
    (hlook : jlookup fs f = some (.num q)) (hq : q < 0 ∨ 100 < q) :
    ∃ es, optMaxSchemaParse (some (.obj fs)) = .error es ∧
      ∃ i ∈ es, i.path = [f] := by
  obtain ⟨es0, hes0, i0, hi0, hp0⟩ := parseNumField_out (f := f) hq
  have herr : parseNumField f (jlookup fs f) = .error es0 := by
    rw [hlook]
    exact hes0
  rcases optMaxSchemaParse_cases fs with ⟨db, dp, dv, dr, h1, h2, h3, h4, -⟩ | hcase
  · exfalso
    rcases hf with rfl | rfl | rfl | rfl
    · rw [h1] at herr
      exact Except.noConfusion herr
    · rw [h2] at herr
      exact Except.noConfusion herr
    · rw [h3] at herr
      exact Except.noConfusion herr
    · rw [h4] at herr
      exact Except.noConfusion herr
  · refine ⟨_, hcase, i0, ?_, hp0⟩
    rcases hf with rfl | rfl | rfl | rfl
    · rw [herr]
      simp only [issuesOf, List.mem_append]
      exact Or.inl (Or.inl (Or.inl hi0))
    · rw [herr]
      simp only [issuesOf, List.mem_append]
      exact Or.inl (Or.inl (Or.inr hi0))
    · rw [herr]
      simp only [issuesOf, List.mem_append]
      exact Or.inl (Or.inr hi0)
    · rw [herr]
      simp only [issuesOf, List.mem_append]
      exact Or.inr hi0

lemma parseTypeField_not_mem {s : String}
    (h : demoTypeNames.contains s = false) :
    parseTypeField (some (.str s)) =
      .error [⟨["type"], "Invalid enum value"⟩] := by
  have h1 : ¬ s = "optmax" := by rintro rfl; simp [demoTypeNames] at h
  have h2 : ¬ s = "collab-pro" := by rintro rfl; simp [demoTypeNames] at h
  have h3 : ¬ s = "nlp-analysis" := by rintro rfl; simp [demoTypeNames] at h
  have h4 : ¬ s = "financial-analytics" := by
    rintro rfl; simp [demoTypeNames] at h
  simp only [parseTypeField, if_neg h1, if_neg h2, if_neg h3, if_neg h4]

/-- A body whose type field is missing or unrecognized fails the envelope
schema. -/
lemma requestSchemaParse_error_of_typeBad {body : Json}
    (h : typeFieldOk body = false) :
    ∃ es, requestSchemaParse body = .error es := by
  cases body with
  | obj fs =>
    simp only [typeFieldOk] at h
    simp only [requestSchemaParse]
    cases hl : jlookup fs "type" with
    | none => exact ⟨_, rfl⟩
    | some v =>
      cases v with
      | str s =>
        rw [hl] at h
        have h2 : demoTypeNames.contains s = false := h
        rw [parseTypeField_not_mem h2]
        exact ⟨_, rfl⟩
      | null => exact ⟨_, rfl⟩
      | bool b => exact ⟨_, rfl⟩
      | num q => exact ⟨_, rfl⟩
      | arr xs => exact ⟨_, rfl⟩
      | obj gs => exact ⟨_, rfl⟩
  | null => exact ⟨_, rfl⟩
  | bool b => exact ⟨_, rfl⟩
  | num q => exact ⟨_, rfl⟩
  | str s => exact ⟨_, rfl⟩
  | arr xs => exact ⟨_, rfl⟩

/-- C1: for every request body whose type field is missing or not one of
the four enum strings, the strict dispatcher answers 400 and makes no
outbound gateway call, whatever the configuration, gateway and JSON parser
are; an unrecognized type is never silently defaulted to a known one. -/
theorem unknownType_rejected_without_call (jsParse : String → Option Json)
    (k : Option String) (gw : GatewayCall → GwResp) (body : Json)
    (h : typeFieldOk body = false) :
    (handlerValidated jsParse k gw body).status = 400 ∧
    (handlerValidated jsParse k gw body).called = none := by
  obtain ⟨es, hes⟩ := requestSchemaParse_error_of_typeBad h
  simp only [handlerValidated, hes]
  exact ⟨by trivial, by trivial⟩

theorem unknownType_rejected_without_call_witness :
    (handlerValidated (fun _ => none) (some "key") (fun _ => ⟨200, ""⟩)
      (Json.obj [("type", Json.str "bogus"), ("data", Json.null)])).status = 400 ∧
    (handlerValidated (fun _ => none) (some "key") (fun _ => ⟨200, ""⟩)
      (Json.obj [("type", Json.str "bogus"), ("data", Json.null)])).called = none :=
  unknownType_rejected_without_call _ _ _ _ (by decide)

/-- C5: an optmax request with any of the four weights out of the closed
interval 0..100 is answered 400, with the offending field named in the
issue details, and no gateway call happens, whatever the other fields
hold. -/
theorem optmax_out_of_range_rejected (jsParse : String → Option Json)
    (k : String) (gw : GatewayCall → GwResp) (fs : List (String × Json))
    (f : String) (q : ℚ)
    (hf : f = "budget" ∨ f = "performance" ∨ f = "vram" ∨ f = "recency")
    (hlook : jlookup fs f = some (.num q)) (hq : q < 0 ∨ 100 < q) :
    (handlerValidated jsParse (some k) gw (optmaxBody fs)).status = 400 ∧
    (handlerValidated jsParse (some k) gw (optmaxBody fs)).called = none ∧
    ∃ es, (handlerValidated jsParse (some k) gw (optmaxBody fs)).body =
        .errorDetails "Invalid OptMax input" es ∧ ∃ i ∈ es, i.path = [f] := by
  obtain ⟨es, hes, hi⟩ := optMaxSchemaParse_field_out hf hlook hq
  have henv : requestSchemaParse (optmaxBody fs) =
      .ok (.optmax, some (.obj fs)) := rfl
  simp only [handlerValidated, henv, hes]
  exact ⟨by trivial, by trivial, es, by trivial, hi⟩

theorem optmax_out_of_range_rejected_witness :
    (handlerValidated (fun _ => none) (some "key") (fun _ => ⟨200, ""⟩)
      (optmaxBody [("budget", Json.num (-1)), ("performance", Json.num 50),
        ("vram", Json.num 50), ("recency", Json.num 50)])).status = 400 :=
  (optmax_out_of_range_rejected (fun _ => none) "key" (fun _ => ⟨200, ""⟩)
    [("budget", Json.num (-1)), ("performance", Json.num 50),
     ("vram", Json.num 50), ("recency", Json.num 50)] "budget" (-1)
    (Or.inl rfl) rfl (Or.inl (by norm_num))).1

/-- C6: every request failing envelope or type-specific field validation
is answered 400 with no outbound gateway call ever attempted (given the
configuration secret is present, whose absence is covered separately);
there is no partial acceptance. -/
theorem invalid_request_rejected_before_call (jsParse : String → Option Json)
    (k : String) (gw : GatewayCall → GwResp) (body : Json)
    (h : validRequest body = false) :
    (handlerValidated jsParse (some k) gw body).status = 400 ∧
    (handlerValidated jsParse (some k) gw body).called = none := by
  cases he : requestSchemaParse body with
  | error es =>
    simp only [handlerValidated, he]
    exact ⟨by trivial, by trivial⟩
  | ok td =>
    obtain ⟨t, data⟩ := td
    simp only [validRequest, he] at h
    simp only [handlerValidated, he]
    cases t with
    | optmax =>
      simp only [fieldsOk] at h
      cases hd : optMaxSchemaParse data with
      | error es =>
        simp only [hd]
        exact ⟨by trivial, by trivial⟩
      | ok d =>
        rw [hd] at h
        simp [Except.toBool] at h
    | collabPro =>
      simp only [fieldsOk] at h
      cases hd : collabProSchemaParse data with
      | error es =>
        simp only [hd]
        exact ⟨by trivial, by trivial⟩
      | ok d =>
        rw [hd] at h
        simp [Except.toBool] at h
    | nlpAnalysis =>
      simp only [fieldsOk] at h
      cases hd : nlpSchemaParse data with
      | error es =>
        simp only [hd]
        exact ⟨by trivial, by trivial⟩
      | ok d =>
        rw [hd] at h
        simp [Except.toBool] at h
    | financialAnalytics =>
      simp only [fieldsOk] at h
      cases hd : financialSchemaParse data with
      | error es =>
        simp only [hd]
        exact ⟨by trivial, by trivial⟩
      | ok d =>
        rw [hd] at h
        simp [Except.toBool] at h

theorem invalid_request_rejected_before_call_witness :
    (handlerValidated (fun _ => none) (some "key") (fun _ => ⟨200, ""⟩)
      c9Body).status = 400 ∧
    (handlerValidated (fun _ => none) (some "key") (fun _ => ⟨200, ""⟩)
      c9Body).called = none :=
  invalid_request_rejected_before_call _ "key" _ _ (by decide)

/-- C7: whenever the strict dispatcher has made its gateway call and the
gateway answers 429, the response is 429 with exactly the fixed
rate-limit body, identically for every demo type and payload. -/
theorem rate_limited_passthrough (jsParse : String → Option Json)
    (k : Option String) (gw : GatewayCall → GwResp) (body : Json)
    (c : GatewayCall)
    (hcalled : (handlerValidated jsParse k gw body).called = some c)
    (h429 : (gw c).status = 429) :
    (handlerValidated jsParse k gw body).status = 429 ∧
    (handlerValidated jsParse k gw body).body =
      .errorOnly "Rate limit exceeded. Please try again later." := by
  have he := handlerValidated_called_eq hcalled
  rw [he, gatewayPhase_429 h429]
  exact ⟨rfl, rfl⟩

theorem rate_limited_passthrough_witness :
    (handlerValidated (fun _ => none) (some "key") (fun _ => ⟨429, ""⟩)
      nlpBodyW).status = 429 ∧
    (handlerValidated (fun _ => none) (some "key") (fun _ => ⟨429, ""⟩)
      nlpBodyW).body =
      .errorOnly "Rate limit exceeded. Please try again later." :=
  rate_limited_passthrough (fun _ => none) (some "key") (fun _ => ⟨429, ""⟩)
    nlpBodyW
    ⟨nlpSystemPrompt, nlpUserPrompt ⟨"hello world, how are you"⟩⟩ rfl rfl

/-- C2: whenever the strict dispatcher has made its gateway call and the
gateway answers 200, the response is 200; if the message content parses as
JSON the body is exactly that parsed value, and exactly when JSON parsing
throws the body is the rawResponse wrapper around the original text. -/
theorem success_parse_exact_or_raw (jsParse : String → Option Json)
    (k : Option String) (gw : GatewayCall → GwResp) (body : Json)
    (c : GatewayCall)
    (hcalled : (handlerValidated jsParse k gw body).called = some c)
    (h200 : (gw c).status = 200) :
    (handlerValidated jsParse k gw body).status = 200 ∧
    (∀ j, jsParse (gw c).content = some j →
      (handlerValidated jsParse k gw body).body = .json j) ∧
    (jsParse (gw c).content = none →
      (handlerValidated jsParse k gw body).body =
        .json (.obj [("rawResponse", .str (gw c).content)])) := by
  have he := handlerValidated_called_eq hcalled
  rw [he, gatewayPhase_200 h200]
  refine ⟨rfl, ?_, ?_⟩
  · intro j hj
    simp only [hj]
  · intro hj
    simp only [hj]

theorem success_parse_exact_or_raw_witness :
    (handlerValidated (fun _ => none) (some "key")
      (fun _ => ⟨200, "not json"⟩) optBodyW).body =
      RespBody.json (.obj [("rawResponse", .str "not json")]) :=
  (success_parse_exact_or_raw (fun _ => none) (some "key")
    (fun _ => ⟨200, "not json"⟩) optBodyW
    ⟨optmaxSystemPrompt, optmaxUserPrompt ⟨50, 50, 50, 50⟩⟩ rfl rfl).2.2 rfl

/-- C8: the system prompt of the outbound call is a function of the
request type alone; two requests of the same validated type produce
identical system prompts whatever their payloads, parsers, keys and
gateways are. -/
theorem systemPrompt_depends_only_on_type
    (jsP1 : String → Option Json) (k1 : Option String)
    (gw1 : GatewayCall → GwResp) (body1 : Json)
    (jsP2 : String → Option Json) (k2 : Option String)
    (gw2 : GatewayCall → GwResp) (body2 : Json)
    (t : DemoType) (d1 d2 : Option Json) (c1 c2 : GatewayCall)
    (he1 : requestSchemaParse body1 = .ok (t, d1))
    (he2 : requestSchemaParse body2 = .ok (t, d2))
    (h1 : (handlerValidated jsP1 k1 gw1 body1).called = some c1)
    (h2 : (handlerValidated jsP2 k2 gw2 body2).called = some c2) :
    c1.systemPrompt = c2.systemPrompt :=
  (handlerValidated_sysPrompt he1 h1).trans
    (handlerValidated_sysPrompt he2 h2).symm

theorem systemPrompt_depends_only_on_type_witness :
    (GatewayCall.mk optmaxSystemPrompt
      (optmaxUserPrompt ⟨10, 20, 30, 40⟩)).systemPrompt =
    (GatewayCall.mk optmaxSystemPrompt
      (optmaxUserPrompt ⟨50, 50, 50, 50⟩)).systemPrompt :=
  systemPrompt_depends_only_on_type
    (fun _ => none) (some "key") (fun _ => ⟨200, ""⟩)
    (optmaxBody [("budget", Json.num 10), ("performance", Json.num 20),
      ("vram", Json.num 30), ("recency", Json.num 40)])
    (fun _ => none) (some "key") (fun _ => ⟨200, ""⟩) optBodyW
    .optmax _ _ _ _ rfl rfl rfl rfl

/-- C9: the two sibling dispatchers are not behaviorally equivalent: on an
optmax payload with a weight of -1 the strict variant answers 400 without
any gateway call, while the unvalidated sibling performs no validation or
sanitization and calls the gateway with a prompt rendered from the raw
payload. -/
theorem dispatchers_not_equivalent (jsParse : String → Option Json)
    (k : String) (gw : GatewayCall → GwResp) :
    (handlerValidated jsParse (some k) gw c9Body).status = 400 ∧
    (handlerValidated jsParse (some k) gw c9Body).called = none ∧
    (handlerUnvalidated jsParse (some k) gw c9Body).called =
      some ⟨optmaxSystemPrompt,
        "User preferences: Budget: -1%, Performance: 50%, VRAM: 50%, Recency: 50%. Recommend 5 GPUs."⟩ := by
  refine ⟨rfl, rfl, ?_⟩
  exact gatewayPhase_called jsParse gw
    ⟨optmaxSystemPrompt,
      "User preferences: Budget: -1%, Performance: 50%, VRAM: 50%, Recency: 50%. Recommend 5 GPUs."⟩

/-- C10: with the configuration secret absent, the secret check sits after
envelope validation and before field validation: a recognized type gets
500 with the configuration message even when its fields are invalid, an
unrecognized type still gets 400, and no gateway call is made either
way. -/
theorem missing_key_after_envelope_before_fields
    (jsParse : String → Option Json) (gw : GatewayCall → GwResp)
    (body : Json) :
    (handlerValidated jsParse none gw body).called = none ∧
    (handlerValidated jsParse none gw body).status =
      (if envelopeOk body then 500 else 400) ∧
    (envelopeOk body = true →
      (handlerValidated jsParse none gw body).body =
        .errorOnly "LOVABLE_API_KEY is not configured") := by
  cases he : requestSchemaParse body with
  | error es =>
    simp only [handlerValidated, envelopeOk, he]
    refine ⟨by trivial, by trivial, ?_⟩
    intro hcon
    simp at hcon
  | ok td =>
    obtain ⟨t, data⟩ := td
    simp only [handlerValidated, envelopeOk, he]
    exact ⟨by trivial, by trivial, fun _ => by trivial⟩

theorem missing_key_after_envelope_before_fields_witness :
    (handlerValidated (fun _ => none) none (fun _ => ⟨200, ""⟩)
      (Json.obj [("type", Json.str "optmax")])).body =
      RespBody.errorOnly "LOVABLE_API_KEY is not configured" :=
  (missing_key_after_envelope_before_fields (fun _ => none)
    (fun _ => ⟨200, ""⟩) (Json.obj [("type", Json.str "optmax")])).2.2 rfl

/-- C3 (amended): the sanitized output contains none of the seven special
characters, no run of three or more consecutive newlines, is at most 1000
characters long, and never starts with whitespace; it also never ends with
whitespace provided the final 1000-character slice cut nothing.  The
unamended claim is false: truncation happens after trimming and can expose
trailing whitespace. -/
theorem sanitizeInput_guarantees (s : String) :
    (∀ c ∈ (sanitizeInput s).data, specialChars.contains c = false) ∧
    (¬ tripleNewline <:+: (sanitizeInput s).data) ∧
    (sanitizeInput s).data.length ≤ 1000 ∧
    (∀ c, (sanitizeInput s).data.head? = some c →
      isJsWhitespace c = false) ∧
    ((jsTrim (collapseNewlines (removeSpecial s.data))).length ≤ 1000 →
      ∀ c, (sanitizeInput s).data.getLast? = some c →
        isJsWhitespace c = false) := by
  refine ⟨?_, ?_, ?_, ?_, ?_⟩
  · intro c hc
    exact sanitizeChars_no_special hc
  · exact sanitizeChars_no_triple s.data
  · exact sanitizeChars_length_le s.data
  · intro c hc
    exact sanitizeChars_head_not_ws hc
  · intro hlen c hc
    exact sanitizeChars_last_not_ws hlen hc

theorem sanitizeInput_guarantees_witness :
    isJsWhitespace 'i' = false :=
  (sanitizeInput_guarantees "  hi  ").2.2.2.2 (by decide) 'i' (by decide)

/-- C3 counterexample: on a 1001-character input whose character at index
999 is a space, the sanitized output ends in whitespace, refuting the
no-trailing-whitespace part of the claim as stated. -/
theorem sanitizeInput_trailing_ws_cex :
    (sanitizeInput (String.mk longTailInput)).data.getLast? = some ' ' ∧
    isJsWhitespace ' ' = true :=
  ⟨by decide, by decide⟩

/-- C4 (amended): sanitization is idempotent on every input whose
sanitized output does not end in whitespace — in particular whenever the
final truncation cut nothing.  The unamended claim is false because the
truncation happens after trimming and can expose trailing whitespace that
a second application trims away. -/
theorem sanitizeInput_idempotent_unless_trailing_ws (s : String)
    (h : (sanitizeInput s).data.getLast?.all
      (fun c => !isJsWhitespace c) = true) :
    sanitizeInput (sanitizeInput s) = sanitizeInput s := by
  have h2 : (sanitizeChars s.data).getLast?.all
      (fun c => !isJsWhitespace c) = true := h
  have hlast : ∀ c, (sanitizeChars s.data).getLast? = some c →
      isJsWhitespace c = false := by
    intro c hc
    rw [hc] at h2
    simpa using h2
  exact congrArg String.mk (sanitizeChars_fixed
    (fun c hc => sanitizeChars_no_special hc)
    (sanitizeChars_no_triple s.data)
    (fun c hc => sanitizeChars_head_not_ws hc)
    hlast
    (sanitizeChars_length_le s.data))

theorem sanitizeInput_idempotent_unless_trailing_ws_witness :
    sanitizeInput (sanitizeInput "  a  b  ") = sanitizeInput "  a  b  " :=
  sanitizeInput_idempotent_unless_trailing_ws "  a  b  " (by decide)

/-- C4 counterexample: sanitize is not idempotent on the 1001-character
input whose truncation exposes a trailing space; the second application
trims that space away, so the two sides differ. -/
theorem sanitizeInput_not_idempotent_cex :
    sanitizeInput (sanitizeInput (String.mk longTailInput)) ≠
      sanitizeInput (String.mk longTailInput) := by
  decide

end AiDemo
